import Mathlib

/-!
Verification of the natural-language specification of the M-pm healthcare
chatbot repository against a shallow embedding of its Python source.

Each definition below is translated from a named function of the source
tree (file and function given in its doc comment).  Python strings are
modelled by Lean `String` viewed as its list of characters; Python string
methods (`lower`, `strip`, `in`, slicing, `startswith`, `endswith`) are
given explicit list-based models.  Python floats that only carry scores
are modelled by `ℚ`.  External I/O calls (vector search, embedding
backends, the database driver) are modelled as explicit outcome
parameters (`Except`/outcome sequences), matching the `try/except`
structure of the source.
-/

namespace Mpm

/-- Model of Python `s.lower()` (ASCII case folding, as used by the source). -/
def pyLower (s : String) : String := String.mk (s.toList.map Char.toLower)

/-- Containment of one character list in another (contiguous substring). -/
def listInfix (needle : List Char) : List Char → Bool
  | [] => needle.isPrefixOf []
  | c :: rest => needle.isPrefixOf (c :: rest) || listInfix needle rest

/-- Model of the Python containment test `needle in haystack` on strings. -/
def pyContains (haystack needle : String) : Bool :=
  listInfix needle.toList haystack.toList

/-- Model of Python `s.strip()`: drop leading and trailing whitespace. -/
def pyStrip (s : String) : String :=
  String.mk (((s.toList.dropWhile Char.isWhitespace).reverse.dropWhile Char.isWhitespace).reverse)

/-- Model of Python `s.startswith(p)`. -/
def pyStartsWith (s p : String) : Bool := p.toList.isPrefixOf s.toList

/-- Model of Python `s.endswith(p)`. -/
def pyEndsWith (s p : String) : Bool := p.toList.isSuffixOf s.toList

/-- Model of the Python slice `s[n:]`. -/
def pySliceFrom (s : String) (n : Nat) : String := String.mk (s.toList.drop n)

/-- Model of the Python slice `s[:-n]` (for `n ≤ len(s)`; Python clamps, and
`List.take` clamps the same way). -/
def pyDropRight (s : String) (n : Nat) : String :=
  String.mk (s.toList.take (s.toList.length - n))

/- ### Code-fence stripping (SqlGenerator LLM path) -/

/-- `dynamic_schema_manager.py`, `generate_sql_with_current_schema`
(lines 492-501): the fence-stripping post-processing of the raw LLM
response.  Strips a leading ```` ```sql ````, then a leading bare
```` ``` ````, then a trailing ```` ``` ````, with a strip at both ends. -/
def cleanLlmSqlDyn (raw : String) : String :=
  let sql := pyStrip raw
  let sql := if pyStartsWith sql "```sql" then pySliceFrom sql 6 else sql
  let sql := if pyStartsWith sql "```" then pySliceFrom sql 3 else sql
  let sql := if pyEndsWith sql "```" then pyDropRight sql 3 else sql
  pyStrip sql

/-- `enhanced_schema_rag.py`, `_generate_sql_with_llm_complete`
(lines 559-570): identical fence stripping to the dynamic schema manager. -/
def cleanLlmSqlRag (raw : String) : String :=
  let sql := pyStrip raw
  let sql := if pyStartsWith sql "```sql" then pySliceFrom sql 6 else sql
  let sql := if pyStartsWith sql "```" then pySliceFrom sql 3 else sql
  let sql := if pyEndsWith sql "```" then pyDropRight sql 3 else sql
  pyStrip sql

/-- `availability_query_generator.py`, `_generate_with_llm` (lines 150-157):
fence stripping in the availability generator.  Unlike the two functions
above it has no branch for a leading bare ```` ``` ```` fence: it only
strips a leading ```` ```sql ```` and a trailing ```` ``` ````. -/
def cleanLlmSqlAvail (raw : String) : String :=
  let sql := pyStrip raw
  let sql := if pyStartsWith sql "```sql" then pySliceFrom sql 6 else sql
  let sql := if pyEndsWith sql "```" then pyDropRight sql 3 else sql
  pyStrip sql

/- ### Weekday conventions -/

/-- `availability_query_generator.py`, `AvailabilityQueryGenerator.__init__`
(lines 30-33): `self.weekday_mapping`, the name-to-number convention used
when generating availability SQL (Monday = 1 … Sunday = 7). -/
def weekdayMapping : List (String × Int) :=
  [("monday", 1), ("tuesday", 2), ("wednesday", 3), ("thursday", 4),
   ("friday", 5), ("saturday", 6), ("sunday", 7)]

/-- `availability_query_generator.py`, `_extract_weekday` (lines 266-275):
first weekday name occurring in the lowercased text, defaulting to 3. -/
def extractWeekday (text : String) : Int :=
  match weekdayMapping.find? (fun p => pyContains (pyLower text) p.1) with
  | some p => p.2
  | none => 3

/-- `healthcare_chatbot_service.py`, `_format_availability_results`
(lines 1221-1224): `day_mapping`, the number-to-name convention used when
formatting availability rows (1 = Sunday … 7 = Saturday). -/
def dayMapping : List (Int × String) :=
  [(1, "Sunday"), (2, "Monday"), (3, "Tuesday"), (4, "Wednesday"),
   (5, "Thursday"), (6, "Friday"), (7, "Saturday")]

/- ### Embedding helper -/

/-- `dynamic_schema_manager.py`, `_get_embedding` (lines 363-377); the copy in
`enhanced_schema_rag.py` (lines 345-361) is line-for-line the same logic.
`embeddingModelAvailable` models `self.embedding_model` being non-`None`,
`embeddingType` models `self.embedding_type`, and `backendCall` models the
outcome of the external embedding call (`embed_query` / `encode`), which
the source wraps in `try/except`.  Every failure path returns the
384-dimensional zero vector. -/
def getEmbedding (embeddingModelAvailable : Bool) (embeddingType : Option String)
    (backendCall : Except String (List ℚ)) : List ℚ :=
  if !embeddingModelAvailable then List.replicate 384 0
  else if embeddingType = some "ollama" then
    match backendCall with
    | .ok v => v
    | .error _ => List.replicate 384 0
  else if embeddingType = some "sentence_transformer" then
    match backendCall with
    | .ok v => v
    | .error _ => List.replicate 384 0
  else List.replicate 384 0

/- ### Schema data model (dynamic_schema_manager.py) -/

/-- One column dictionary of a parsed table (`sql_schema_parser` output as
consumed by the schema managers): the fields the modelled functions read. -/
structure ColumnInfo where
  name : String
  data_type : String := ""
  is_primary_key : Bool := false
  deriving DecidableEq, Repr

/-- One table dictionary of `self.current_schema` in
`dynamic_schema_manager.py`: the fields the modelled functions read. -/
structure TableInfo where
  table_name : String
  columns : List ColumnInfo
  deriving DecidableEq, Repr

/-- `self.current_schema`: a dict from table name to table info, modelled as
an association list with unique keys. -/
abbrev Schema := List (String × TableInfo)

/-- `dynamic_schema_manager.py`, `_get_tables_by_keywords` (lines 432-442):
the literal `keywords_map`. -/
def keywordsMap : List (String × List String) :=
  [("patient", ["Patient"]),
   ("employee", ["Employee"]),
   ("appointment", ["Appointment", "AppointmentStatus"]),
   ("auth", ["Auth"]),
   ("location", ["Location", "Site"]),
   ("service", ["ServiceType"]),
   ("availability", ["Employee", "EmployeeAvailabilityDateTime"]),
   ("treatment", ["TreatmentType"]),
   ("gender", ["Gender"])]

/-- Python `set.update`: add the new elements, keeping one copy of each.
The source iterates a `set`, whose order is unspecified; this model fixes
insertion order, and the theorems below only use membership. -/
def setUpdate (acc xs : List String) : List String :=
  xs.foldl (fun a x => if x ∈ a then a else a ++ [x]) acc

/-- `dynamic_schema_manager.py`, `_get_tables_by_keywords` (lines 444-447):
the `matched_tables` set accumulated over `keywords_map`. -/
def matchedTables (userQuery : String) : List String :=
  keywordsMap.foldl
    (fun acc p => if pyContains (pyLower userQuery) p.1 then setUpdate acc p.2 else acc) []

/-- `dynamic_schema_manager.py`, `_get_tables_by_keywords` (lines 427-456):
keyword matching over the lowercased query; if nothing matches, the default
set `{Patient, Employee, Appointment}`; then the tables of that set that
exist in the current schema. -/
def getTablesByKeywords (schema : Schema) (userQuery : String) : List TableInfo :=
  let matched := matchedTables userQuery
  let matched := if matched = [] then ["Patient", "Employee", "Appointment"] else matched
  matched.filterMap (fun t => schema.lookup t)

/-- One hit returned by `self.client.search` (table-name payload plus score). -/
structure SearchHit where
  table_name : String
  score : ℚ
  deriving DecidableEq, Repr

/-- The dictionary returned by `get_schema_for_query`. -/
structure SchemaQueryResult where
  tables : List TableInfo
  confidence_score : ℚ
  search_method : String
  deriving DecidableEq, Repr

/-- `dynamic_schema_manager.py`, `get_schema_for_query` (lines 379-425).
`clientAvailable` models `self.client` being non-`None`,
`embeddingAvailable` models `self.embedding_model` being non-`None`, and
`vectorSearch` models the outcome of the `self.client.search` call, the
only statement in the `try` block that can raise (`_get_embedding` is
total, see `getEmbedding`).  On an exception the method falls back to
keyword matching with confidence 0.6 and method `keyword_fallback`; when
search succeeds, the hits found in the schema are returned — falling back
to keyword matching when there are none — with method `vector_search` and
confidence the mean hit score (0.7 when there were no hits at all). -/
def getSchemaForQuery (clientAvailable embeddingAvailable : Bool) (schema : Schema)
    (vectorSearch : Except String (List SearchHit)) (userQuery : String) : SchemaQueryResult :=
  if !clientAvailable || !embeddingAvailable then
    { tables := schema.map Prod.snd
      confidence_score := 1/2
      search_method := "complete_schema" }
  else
    match vectorSearch with
    | .error _ =>
        { tables := getTablesByKeywords schema userQuery
          confidence_score := 3/5
          search_method := "keyword_fallback" }
    | .ok hits =>
        let relevantTables := hits.filterMap (fun h => schema.lookup h.table_name)
        let relevantTables :=
          if relevantTables = [] then getTablesByKeywords schema userQuery else relevantTables
        let confidence :=
          if hits = [] then 7/10 else (hits.map SearchHit.score).sum / (hits.length : ℚ)
        { tables := relevantTables
          confidence_score := confidence
          search_method := "vector_search" }

/- ### Rule-based SQL generation (dynamic_schema_manager.py) -/

/-- Python `table_name[0].lower()`: the lowercased first character used as the
table alias.  (Python raises `IndexError` on an empty name; table names in
the schema are never empty, and the model returns `""` there.) -/
def aliasOf (tableName : String) : String :=
  match tableName.toList with
  | [] => ""
  | c :: _ => String.mk [c.toLower]

/-- The `columns` local of `_generate_basic_sql` (lines 558-560): the first
five column names of the main table, alias-qualified. -/
def basicSqlSelectCols (tableAlias : String) (mainTable : TableInfo) : List String :=
  (mainTable.columns.take 5).map (fun c => tableAlias ++ "." ++ c.name)

/-- The `active_columns` local of `_generate_basic_sql` (line 565): names of
the main table's columns containing `active` (case-insensitively). -/
def basicSqlActiveCols (mainTable : TableInfo) : List String :=
  (mainTable.columns.filter (fun c => pyContains (pyLower c.name) "active")).map ColumnInfo.name

/-- `dynamic_schema_manager.py`, `_generate_basic_sql` (lines 548-569): the
rule-based fallback SQL.  All identifiers inserted into the text come from
`tables[0]` (see the schema-grounding theorem below). -/
def generateBasicSql (user_query : String) (tables : List TableInfo) : String :=
  match tables with
  | [] => "SELECT 'No tables available' as Message"
  | mainTable :: _ =>
    let tableName := mainTable.table_name
    let tableAlias := aliasOf tableName
    let columns := basicSqlSelectCols tableAlias mainTable
    let sql := "SELECT " ++ String.intercalate ", " columns ++ " FROM " ++ tableName ++ " " ++ tableAlias
    match basicSqlActiveCols mainTable with
    | [] => sql
    | activeCol :: _ => sql ++ " WHERE " ++ tableAlias ++ "." ++ activeCol ++ " = 1"

/- ### Rule-based SQL generation (enhanced_schema_rag.py) -/

/-- `enhanced_schema_rag.py`, dataclass `DatabaseTable` (lines 36-46): the
fields read by the modelled functions. -/
structure DatabaseTable where
  table_name : String
  columns : List ColumnInfo
  business_concepts : List String := []
  deriving DecidableEq, Repr

/-- `enhanced_schema_rag.py`, `_determine_main_table_from_schema`
(lines 654-668): first table one of whose business concepts occurs in the
lowercased query; else the first table present from a fixed priority
order; else the first table; else `"Patient"`. -/
def determineMainTable (queryLower : String) (tables : List DatabaseTable) : String :=
  match tables.find? (fun t => t.business_concepts.any (fun c => pyContains queryLower c)) with
  | some t => t.table_name
  | none =>
    match ["Appointment", "Patient", "Employee", "Auth", "Location"].find?
        (fun n => tables.any (fun t => t.table_name = n)) with
    | some n => n
    | none =>
      match tables with
      | [] => "Patient"
      | t :: _ => t.table_name

/-- Python `any(part in col for part in ['firstname', 'lastname', 'name'])`
over the lowercased column name (line 639). -/
def isNameLikeCol (colName : String) : Bool :=
  ["firstname", "lastname", "name"].any (fun part => pyContains (pyLower colName) part)

/-- The `select_columns` local of `_generate_sql_fallback` (lines 632-643):
alias-qualified primary-key and name-like columns, or `alias.*` if none. -/
def ragSelectCols (tableAlias : String) (mainTable : DatabaseTable) : List String :=
  let cols := mainTable.columns.filterMap (fun c =>
    if c.is_primary_key then some (tableAlias ++ "." ++ c.name)
    else if isNameLikeCol c.name then some (tableAlias ++ "." ++ c.name)
    else none)
  if cols = [] then [tableAlias ++ ".*"] else cols

/-- `enhanced_schema_rag.py`, `_generate_sql_fallback` (lines 619-652): the
rule-based fallback.  Note the `WHERE` clause always references the
columns `Active` and `IsActive`, whether or not the supplied tables have
them. -/
def generateSqlFallback (user_query : String) (tables : List DatabaseTable) : String :=
  let queryLower := pyLower user_query
  let mainTable := determineMainTable queryLower tables
  match tables.find? (fun t => t.table_name = mainTable) with
  | none => "SELECT 'Error: Could not determine main table' as ErrorMessage"
  | some mainTableObj =>
    let tableAlias := aliasOf mainTable
    let selectColumns := ragSelectCols tableAlias mainTableObj
    -- `"\n".join(sql_parts)` over the literal three-part list, written out
    "SELECT " ++ String.intercalate ", " (selectColumns.take 5) ++ "\n" ++
    "FROM " ++ mainTable ++ " " ++ tableAlias ++ "\n" ++
    "WHERE " ++ tableAlias ++ ".Active = 1 OR " ++ tableAlias ++ ".IsActive = 1"

/- ### Schema change detection (dynamic_schema_manager.py) -/

/-- The subset of dataclass `SchemaUpdateInfo` (lines 36-47) that
`check_for_schema_changes` fills in: `tables_updated`, `columns_added` and
`columns_removed` (dicts modelled as association lists). -/
structure SchemaUpdateInfo where
  tables_updated : List String
  columns_added : List (String × List String)
  columns_removed : List (String × List String)
  deriving DecidableEq, Repr

/-- Column names of table `t` in a schema:
`{col['name'] for col in schema.get(t, {}).get('columns', [])}` (lines 212-213). -/
def tableColNames (schema : Schema) (t : String) : List String :=
  match schema.lookup t with
  | some info => info.columns.map ColumnInfo.name
  | none => []

/-- The `added_tables` local (line 204): `new_tables - old_tables`. -/
def tablesAddedOf (oldSchema newSchema : Schema) : List String :=
  (newSchema.map Prod.fst).filter (fun t => t ∉ oldSchema.map Prod.fst)

/-- The `removed_tables` local (line 205): `old_tables - new_tables`. -/
def tablesRemovedOf (oldSchema newSchema : Schema) : List String :=
  (oldSchema.map Prod.fst).filter (fun t => t ∉ newSchema.map Prod.fst)

/-- The `common_tables` local (line 206): `old_tables & new_tables`. -/
def tablesCommonOf (oldSchema newSchema : Schema) : List String :=
  (oldSchema.map Prod.fst).filter (fun t => t ∈ newSchema.map Prod.fst)

/-- `dynamic_schema_manager.py`, `check_for_schema_changes` (lines 181-236),
change-analysis block (lines 198-221), run when the schema hash changed:
table changes by set difference over table names, and, per common table,
column changes by set difference over column-name sets (only non-empty
differences are recorded in the dicts).  Python iterates `set`s here, so
only the membership of each field is specified; the model fixes the
original insertion order. -/
def schemaChangeAnalysis (oldSchema newSchema : Schema) : SchemaUpdateInfo :=
  let addedTables := tablesAddedOf oldSchema newSchema
  let removedTables := tablesRemovedOf oldSchema newSchema
  let commonTables := tablesCommonOf oldSchema newSchema
  let colsAdded := commonTables.filterMap (fun t =>
    let addedCols := (tableColNames newSchema t).filter (fun c => c ∉ tableColNames oldSchema t)
    if addedCols = [] then none else some (t, addedCols))
  let colsRemoved := commonTables.filterMap (fun t =>
    let removedCols := (tableColNames oldSchema t).filter (fun c => c ∉ tableColNames newSchema t)
    if removedCols = [] then none else some (t, removedCols))
  { tables_updated := addedTables ++ removedTables ++ commonTables
    columns_added := colsAdded
    columns_removed := colsRemoved }

/-- Whether an update info reports column `c` as added in table `t`. -/
def colAddedIn (u : SchemaUpdateInfo) (t c : String) : Bool :=
  u.columns_added.any (fun p => p.1 = t && c ∈ p.2)

/-- Whether an update info reports column `c` as removed in table `t`. -/
def colRemovedIn (u : SchemaUpdateInfo) (t c : String) : Bool :=
  u.columns_removed.any (fun p => p.1 = t && c ∈ p.2)

/- ### Retry wrapper (healthcare_database_manager_sqlserver.py) -/

/-- Outcome of one invocation of the wrapped database operation:
a successful return, a raised `pyodbc.Error` (whose `str` is the message),
or a raised exception of any other class. -/
inductive DbOutcome (α : Type) where
  | ok (v : α)
  | dbErr (msg : String)
  | otherErr (msg : String)
  deriving DecidableEq, Repr

/-- The exception classes a `retry_db_operation`-wrapped call can raise.
`queryExecutionError` is the typed error the specification asks for; no
such class exists anywhere in the repository, and the wrapper never
produces it — it is included only to state that claim. -/
inductive RaisedException where
  | pyodbcError (msg : String)
  | queryExecutionError (msg : String)
  | otherError (msg : String)
  deriving DecidableEq, Repr

/-- How a wrapped call ends: a value, a raised exception, or the `return
None` after the `while` loop falls through (only reachable when
`max_retries = 0`). -/
inductive RetryOutcome (α : Type) where
  | ok (v : α)
  | raised (e : RaisedException)
  | loopFellThrough
  deriving DecidableEq, Repr

/-- Observable behaviour of one wrapped call: its outcome, how many times
the underlying operation was invoked, and the sequence of sleep delays. -/
structure RetryTrace (α : Type) where
  outcome : RetryOutcome α
  calls : Nat
  sleeps : List Nat
  deriving DecidableEq, Repr

/-- `healthcare_database_manager_sqlserver.py`, `retry_db_operation`
(lines 39-46): the `retryable_errors` list. -/
def retryableErrors : List String :=
  ["42S02", "08001", "08S01", "40001", "Connection refused", "timeout"]

/-- `is_retryable = any(err in error_code for err in retryable_errors)`
(line 48). -/
def isRetryable (errorCode : String) : Bool :=
  retryableErrors.any (fun err => pyContains errorCode err)

/-- The `while retries < max_retries` loop of `retry_db_operation`
(lines 27-64), with `fuel = max_retries - retries` (so the in-loop test
`retries >= max_retries` after `retries += 1` is `fuel = 0` here).
`f n` is the outcome of the `(n+1)`-th invocation of the wrapped
operation.  On a `pyodbc.Error` that is non-retryable or that exhausts
the attempts the caught error itself is re-raised (bare `raise`); on any
other exception it is re-raised at once; otherwise the loop sleeps
`currentDelay` and doubles it (`current_delay *= backoff`). -/
def retryGo {α : Type} (f : Nat → DbOutcome α) (backoff : Nat) :
    Nat → Nat → Nat → List Nat → RetryTrace α
  | 0, calls, _, sleeps => ⟨.loopFellThrough, calls, sleeps⟩
  | fuel + 1, calls, currentDelay, sleeps =>
    match f calls with
    | .ok v => ⟨.ok v, calls + 1, sleeps⟩
    | .otherErr msg => ⟨.raised (.otherError msg), calls + 1, sleeps⟩
    | .dbErr msg =>
      if fuel = 0 || !isRetryable msg then ⟨.raised (.pyodbcError msg), calls + 1, sleeps⟩
      else retryGo f backoff fuel (calls + 1) (currentDelay * backoff) (sleeps ++ [currentDelay])

/-- `healthcare_database_manager_sqlserver.py`, `retry_db_operation`
(lines 21-66): the decorator applied to an operation whose successive
invocation outcomes are `f 0, f 1, …`.  `search_employee_by_name`
(line 192) uses `max_retries = 3, delay = 2` with the default
`backoff = 2`. -/
def retryDbOperation {α : Type} (maxRetries delay backoff : Nat) (f : Nat → DbOutcome α) :
    RetryTrace α :=
  retryGo f backoff maxRetries 0 delay []

/-- Whether a trace ended by raising the spec's typed `QueryExecutionError`. -/
def raisedQueryExecutionErr {α : Type} (t : RetryTrace α) : Bool :=
  match t.outcome with
  | .raised (.queryExecutionError _) => true
  | _ => false

/- ### Result formatting (healthcare_chatbot_service.py) -/

/-- A Python value as stored in a result-row dict: a string, an int, or
`None` (the only shapes the modelled formatters distinguish). -/
inductive PyVal where
  | vStr (s : String)
  | vInt (n : Int)
  | vNone
  deriving DecidableEq, Repr

/-- Python truthiness of a row value. -/
def PyVal.truthy : PyVal → Bool
  | .vStr s => s ≠ ""
  | .vInt n => n ≠ 0
  | .vNone => false

/-- Python `str(v)` / f-string rendering of a row value. -/
def PyVal.render : PyVal → String
  | .vStr s => s
  | .vInt n => toString n
  | .vNone => "None"

/-- A result row: a dict from column name to value. -/
abbrev Row := List (String × PyVal)

/-- Python `row.get(key, default)`. -/
def rowGet (row : Row) (key : String) (default : PyVal) : PyVal :=
  (row.lookup key).getD default

/-- Python `key in row`. -/
def rowHasKey (row : Row) (key : String) : Bool :=
  (row.lookup key).isSome

/-- Python `a or b` on row values: `b` when `a` is falsy. -/
def pyOrVal (a b : PyVal) : PyVal := if a.truthy then a else b

/-- `day_mapping.get(week_day, f'Day {week_day}') if week_day else 'Unknown Day'`
(line 1236): the integer keys of `day_mapping` are 1..7; any other value
(or a non-integer key) falls back to the f-string default, and a falsy
`week_day` (absent, `None`, `0`) to `'Unknown Day'`. -/
def dayNameFor (weekDay : PyVal) : String :=
  if weekDay.truthy then
    match weekDay with
    | .vInt n => (dayMapping.lookup n).getD ("Day " ++ PyVal.render (.vInt n))
    | v => "Day " ++ v.render
  else "Unknown Day"

/-- One iteration of the `for i, result in enumerate(results[:5])` loop of
`_format_availability_results` (lines 1228-1255); `total = len(results)`.
The `try/except` around the body is unreachable in this model because
every `get` is given its default. -/
def availabilityEntry (total : Nat) (i : Nat) (result : Row) : String :=
  let employeeName := rowGet result "EmployeeName" (.vStr "Unknown Employee")
  let employeeId := rowGet result "EmployeeID" (.vStr "N/A")
  let weekDay := rowGet result "WeekDay" .vNone
  let dayName := dayNameFor weekDay
  let availableFrom := rowGet result "AvailableFrom" (.vStr "N/A")
  let availableTo := rowGet result "AvailableTo" (.vStr "N/A")
  let availabilityStatusId := rowGet result "AvailabilityStatusId" (.vInt 0)
  let timeDisplay :=
    if availableFrom ≠ PyVal.vStr "N/A" ∧ availableTo ≠ PyVal.vStr "N/A" then
      availableFrom.render ++ " - " ++ availableTo.render
    else "Time not specified"
  let entry :=
    "🩺 **" ++ employeeName.render ++ "** (ID: " ++ employeeId.render ++ ")\n" ++
    "   📅 " ++ dayName ++ ": " ++ timeDisplay ++ "\n" ++
    "   ✅ Status: " ++
      (if availabilityStatusId = PyVal.vInt 1 then "Available" else "Not Available") ++ "\n"
  if i < total - 1 ∧ i < 4 then entry ++ "\n" else entry

/-- `healthcare_chatbot_service.py`, `_format_availability_results`
(lines 1215-1266).  An empty row list yields the explicit no-match
message; otherwise the rows (capped at 5) are rendered with the
`day_mapping` of `dayMapping`, followed by an omitted count and a total. -/
def formatAvailabilityResults (query : String) (results : List Row)
    (sql_query : Option String) : String :=
  if results = [] then
    "I analyzed your query '" ++ query ++
      "' and searched the employee schedules, but couldn't find any matching availability information. Please try specifying a different date, time, or provider name."
  else
    let header := "Here's the availability information for your query '" ++ query ++ "':\n\n"
    let body := String.join ((results.take 5).enum.map
      (fun p => availabilityEntry results.length p.1 p.2))
    let moreLine :=
      if results.length > 5 then
        "\n... and " ++ toString (results.length - 5) ++ " more results available.\n"
      else ""
    let totalLine := "\n📊 Total matches found: " ++ toString results.length
    let sqlLine :=
      match sql_query with
      | some s =>
        if s ≠ "" then "\n\n🔍 Query executed successfully against the employee schedules database."
        else ""
      | none => ""
    header ++ body ++ moreLine ++ totalLine ++ sqlLine

/-- The `filter_desc` list of `_format_availability_list_results`
(lines 1072-1082). -/
def filterDescParts (metadata : Row) : List String :=
  (if (rowGet metadata "gender" .vNone).truthy then
    ["Gender: " ++ (rowGet metadata "gender" .vNone).render] else []) ++
  (if (rowGet metadata "site_id" .vNone).truthy then
    ["Site: " ++ (rowGet metadata "site_id" .vNone).render] else []) ++
  (if (rowGet metadata "target_date" .vNone).truthy then
    ["Date: " ++ (rowGet metadata "target_date" .vNone).render] else []) ++
  (if (rowGet metadata "role" .vNone).truthy then
    ["Role: " ++ (rowGet metadata "role" .vNone).render] else []) ++
  (if (rowGet metadata "specialty" .vNone).truthy then
    ["Specialty: " ++ (rowGet metadata "specialty" .vNone).render] else [])

/-- One iteration of the `for i, employee in enumerate(results[:10], 1)` loop
of `_format_availability_list_results` (lines 1091-1108). -/
def availabilityListEntry (i : Nat) (employee : Row) : String :=
  let name :=
    let primary := rowGet employee "EmployeeName" .vNone
    if primary.truthy then primary.render
    else pyStrip ((rowGet employee "first_name" (.vStr "")).render ++ " " ++
      (rowGet employee "last_name" (.vStr "")).render)
  let title := pyOrVal (rowGet employee "Title" .vNone) (rowGet employee "job_title" (.vStr "Employee"))
  let site := pyOrVal (rowGet employee "SiteId" .vNone) (rowGet employee "site_id" (.vStr "N/A"))
  let gender := pyOrVal (rowGet employee "Gender" .vNone) (.vStr "N/A")
  toString i ++ ". " ++ name ++ "\n" ++
  "   Title: " ++ title.render ++ "\n" ++
  "   Site: " ++ site.render ++ "\n" ++
  "   Gender: " ++ gender.render ++ "\n" ++
  (if rowHasKey employee "available_slots" then
    "   Available Slots: " ++ (rowGet employee "available_slots" .vNone).render ++ "\n"
  else if rowHasKey employee "next_available" then
    "   Next Available: " ++ (rowGet employee "next_available" .vNone).render ++ "\n"
  else "") ++ "\n"

/-- `healthcare_chatbot_service.py`, `_format_availability_list_results`
(lines 1066-1113). -/
def formatAvailabilityListResults (results : List Row) (metadata : Row) : String :=
  if results = [] then "No employees found matching your criteria."
  else
    let filterDesc := filterDescParts metadata
    let header :=
      (if filterDesc ≠ [] then
        "Available Employees (" ++ String.intercalate ", " filterDesc ++ ")"
      else "Available Employees") ++
      " - " ++ toString results.length ++ " found:\n\n"
    let body := String.join (((results.take 10).enum.map
      (fun p => availabilityListEntry (p.1 + 1) p.2)))
    let tail :=
      if results.length > 10 then
        "... and " ++ toString (results.length - 10) ++
          " more employees. Use filters to narrow down the results.\n"
      else ""
    header ++ body ++ tail

/-- `healthcare_chatbot_service.py`, `_format_appointment_results`
(lines 1268-1286). -/
def formatAppointmentResults (results : List Row) (query : String) : String :=
  if results = [] then
    "I couldn't find any appointment information. Would you like to book a new appointment?"
  else
    "Here are the appointment details I found:\n\n" ++
    String.join ((results.take 3).map (fun result =>
      let appointmentId := rowGet result "appointment_id" (.vStr "N/A")
      let provider :=
        let primary := rowGet result "provider_name" .vNone
        if primary.truthy then primary.render
        else pyStrip ((rowGet result "first_name" (.vStr "")).render ++ " " ++
          (rowGet result "last_name" (.vStr "")).render)
      let date := rowGet result "appointment_date" (.vStr "Date not specified")
      let time := rowGet result "appointment_time" (.vStr "Time not specified")
      let status := rowGet result "status" (.vStr "Status unknown")
      "• Appointment #" ++ appointmentId.render ++ "\n" ++
      "  Provider: " ++ provider ++ "\n" ++
      "  Date/Time: " ++ date.render ++ " at " ++ time.render ++ "\n" ++
      "  Status: " ++ status.render ++ "\n\n"))

/-- `healthcare_chatbot_service.py`, `_format_provider_results`
(lines 1288-1305). -/
def formatProviderResults (results : List Row) (query : String) : String :=
  if results = [] then
    "I couldn't find any providers matching your criteria. Please try different search terms."
  else
    "Here are the providers I found:\n\n" ++
    String.join ((results.take 5).map (fun result =>
      let name :=
        let primary := rowGet result "provider_name" .vNone
        if primary.truthy then primary.render
        else pyStrip ((rowGet result "first_name" (.vStr "")).render ++ " " ++
          (rowGet result "last_name" (.vStr "")).render)
      let specialty := pyOrVal (rowGet result "specialty" .vNone)
        (rowGet result "specialization" (.vStr "General"))
      let phone := pyOrVal (rowGet result "phone" .vNone)
        (rowGet result "contact_phone" (.vStr "Phone not available"))
      let email := pyOrVal (rowGet result "email" .vNone)
        (rowGet result "contact_email" (.vStr "Email not available"))
      "• " ++ name ++ "\n" ++
      "  Specialty: " ++ specialty.render ++ "\n" ++
      "  Phone: " ++ phone.render ++ "\n" ++
      "  Email: " ++ email.render ++ "\n\n"))

/-- `healthcare_chatbot_service.py`, `_format_rag_query_results`, zero-row
branch of the generic category (lines 1204-1205): the message built from
the retrieved table names and the original query. -/
def formatRagGenericNoResults (originalQuery : String) (tableNames : List String) : String :=
  "I searched through " ++ String.intercalate ", " tableNames ++
    " but couldn't find any results for '" ++ originalQuery ++ "'."

/- ### Spec-side rendering of the basic fallback SQL, and concrete fixtures -/

/-- Spec-side decomposition of the rule-based SQL of `_generate_basic_sql`,
used to state schema grounding: a rendering that inserts only the given
table name, its alias, the given column names and the optional activity
column into a fixed template.  The grounding theorem shows the source
function equals this rendering applied to identifiers drawn from the
first supplied table. -/
def specRenderBasicSql (tableName : String) (colNames : List String)
    (activeCol : Option String) : String :=
  let a := aliasOf tableName
  let base := "SELECT " ++ String.intercalate ", " (colNames.map (fun c => a ++ "." ++ c)) ++
    " FROM " ++ tableName ++ " " ++ a
  match activeCol with
  | none => base
  | some ac => base ++ " WHERE " ++ a ++ "." ++ ac ++ " = 1"

/-- A two-table snapshot (`Employee`, `EmployeeAvailabilityDateTime`) used as
a concrete schema in counterexamples and witnesses. -/
def demoSchema : Schema :=
  [("Employee", ⟨"Employee",
      [⟨"EmployeeId", "int", true⟩, ⟨"FirstName", "varchar", false⟩,
       ⟨"LastName", "varchar", false⟩, ⟨"Active", "bit", false⟩]⟩),
   ("EmployeeAvailabilityDateTime", ⟨"EmployeeAvailabilityDateTime",
      [⟨"EmployeeAvailabilityDateTimeId", "int", true⟩, ⟨"EmployeeId", "int", false⟩,
       ⟨"WeekDay", "int", false⟩, ⟨"AvailableFrom", "time", false⟩,
       ⟨"AvailableTo", "time", false⟩]⟩)]

/-- A `Patient` table with columns `PatientId` and `FirstName` only — in
particular with neither an `Active` nor an `IsActive` column. -/
def ragPatientTable : DatabaseTable :=
  ⟨"Patient", [⟨"PatientId", "int", true⟩, ⟨"FirstName", "varchar", false⟩], []⟩

/-- The main table of `demoSchema`, as passed to `_generate_basic_sql`. -/
def basicEmployeeTable : TableInfo :=
  ⟨"Employee",
    [⟨"EmployeeId", "int", true⟩, ⟨"FirstName", "varchar", false⟩,
     ⟨"LastName", "varchar", false⟩, ⟨"Active", "bit", false⟩]⟩

/-- Old snapshot of the schema-diff scenario: `Patient(PatientId, FirstName)`. -/
def patientOldSchema : Schema :=
  [("Patient", ⟨"Patient", [⟨"PatientId", "int", true⟩, ⟨"FirstName", "varchar", false⟩]⟩)]

/-- New snapshot of the schema-diff scenario: column `Email` added. -/
def patientNewSchema : Schema :=
  [("Patient", ⟨"Patient",
      [⟨"PatientId", "int", true⟩, ⟨"FirstName", "varchar", false⟩,
       ⟨"Email", "varchar", false⟩]⟩)]

/- ### Helper lemmas -/

/-- A string whose left part has positive length is not empty. -/
theorem appendNeEmptyOfLeft (a b : String) (ha : 0 < a.length) : a ++ b ≠ "" := by
  intro hc
  have h2 := congrArg String.length hc
  rw [String.length_append] at h2
  have h0 : String.length "" = 0 := rfl
  omega

/-- Membership characterisation of `tablesAddedOf`. -/
theorem tablesAdded_iff (oldS newS : Schema) (t : String) :
    t ∈ tablesAddedOf oldS newS ↔ t ∈ newS.map Prod.fst ∧ t ∉ oldS.map Prod.fst := by
  simp [tablesAddedOf, List.mem_filter]

/-- Membership characterisation of `tablesRemovedOf`. -/
theorem tablesRemoved_iff (oldS newS : Schema) (t : String) :
    t ∈ tablesRemovedOf oldS newS ↔ t ∈ oldS.map Prod.fst ∧ t ∉ newS.map Prod.fst := by
  simp [tablesRemovedOf, List.mem_filter]

/-- Membership characterisation of the `columns_added` dict computed by the
change analysis. -/
theorem colAdded_iff (oldS newS : Schema) (t c : String) :
    colAddedIn (schemaChangeAnalysis oldS newS) t c = true ↔
      (t ∈ oldS.map Prod.fst ∧ t ∈ newS.map Prod.fst ∧
       c ∈ tableColNames newS t ∧ c ∉ tableColNames oldS t) := by
  simp only [colAddedIn, schemaChangeAnalysis, List.any_eq_true, List.mem_filterMap,
    tablesCommonOf, List.mem_filter, Bool.and_eq_true, decide_eq_true_eq]
  constructor
  · rintro ⟨p, ⟨t2, ⟨ht2old, ht2new⟩, hf⟩, hp1, hp2⟩
    split at hf
    · exact absurd hf (by simp)
    · cases hf
      obtain rfl : t2 = t := hp1
      simp only [List.mem_filter, decide_eq_true_eq] at hp2
      exact ⟨ht2old, ht2new, hp2.1, hp2.2⟩
  · rintro ⟨hold, hnew, hcnew, hcold⟩
    have hcmem : c ∈ (tableColNames newS t).filter (fun x => decide (x ∉ tableColNames oldS t)) :=
      List.mem_filter.mpr ⟨hcnew, decide_eq_true hcold⟩
    exact ⟨(t, (tableColNames newS t).filter (fun x => decide (x ∉ tableColNames oldS t))),
      ⟨t, ⟨hold, hnew⟩, if_neg (List.ne_nil_of_mem hcmem)⟩, rfl, hcmem⟩

/-- Membership characterisation of the `columns_removed` dict computed by the
change analysis. -/
theorem colRemoved_iff (oldS newS : Schema) (t c : String) :
    colRemovedIn (schemaChangeAnalysis oldS newS) t c = true ↔
      (t ∈ oldS.map Prod.fst ∧ t ∈ newS.map Prod.fst ∧
       c ∈ tableColNames oldS t ∧ c ∉ tableColNames newS t) := by
  simp only [colRemovedIn, schemaChangeAnalysis, List.any_eq_true, List.mem_filterMap,
    tablesCommonOf, List.mem_filter, Bool.and_eq_true, decide_eq_true_eq]
  constructor
  · rintro ⟨p, ⟨t2, ⟨ht2old, ht2new⟩, hf⟩, hp1, hp2⟩
    split at hf
    · exact absurd hf (by simp)
    · cases hf
      obtain rfl : t2 = t := hp1
      simp only [List.mem_filter, decide_eq_true_eq] at hp2
      exact ⟨ht2old, ht2new, hp2.1, hp2.2⟩
  · rintro ⟨hold, hnew, hcold, hcnew⟩
    have hcmem : c ∈ (tableColNames oldS t).filter (fun x => decide (x ∉ tableColNames newS t)) :=
      List.mem_filter.mpr ⟨hcold, decide_eq_true hcnew⟩
    exact ⟨(t, (tableColNames oldS t).filter (fun x => decide (x ∉ tableColNames newS t))),
      ⟨t, ⟨hold, hnew⟩, if_neg (List.ne_nil_of_mem hcmem)⟩, rfl, hcmem⟩

/- ### Claim theorems -/

/-- C1 (amended): in rule-based mode, `_generate_basic_sql`
(dynamic_schema_manager) references only identifiers of the first supplied
table: its SQL equals a fixed template rendered from the table's name and
a selection of its own column names (the first five, plus at most one
activity column drawn from its columns).  The rule-based fallback of
`enhanced_schema_rag`, by contrast, always appends
`WHERE <alias>.Active = 1 OR <alias>.IsActive = 1`, referencing the
columns `Active` and `IsActive` whether or not they are among the supplied
descriptors — so schema grounding holds for the former but not the latter. -/
theorem C1_rule_based_grounding_amended (user_query : String) (mainTable : TableInfo)
    (rest : List TableInfo) (uq2 : String) (tables2 : List DatabaseTable) (mainObj : DatabaseTable)
    (hfind : tables2.find? (fun t => t.table_name = determineMainTable (pyLower uq2) tables2)
      = some mainObj) :
    (∃ colNames : List String, ∃ activeCol : Option String,
      (∀ c ∈ colNames, c ∈ mainTable.columns.map ColumnInfo.name)
      ∧ (∀ a ∈ activeCol.toList, a ∈ mainTable.columns.map ColumnInfo.name)
      ∧ generateBasicSql user_query (mainTable :: rest) =
          specRenderBasicSql mainTable.table_name colNames activeCol)
    ∧ generateSqlFallback uq2 tables2 =
        "SELECT " ++ String.intercalate ", "
            ((ragSelectCols (aliasOf (determineMainTable (pyLower uq2) tables2)) mainObj).take 5) ++ "\n" ++
        "FROM " ++ determineMainTable (pyLower uq2) tables2 ++ " " ++
          aliasOf (determineMainTable (pyLower uq2) tables2) ++ "\n" ++
        "WHERE " ++ aliasOf (determineMainTable (pyLower uq2) tables2) ++ ".Active = 1 OR " ++
          aliasOf (determineMainTable (pyLower uq2) tables2) ++ ".IsActive = 1" := by
  constructor
  · refine ⟨(mainTable.columns.take 5).map ColumnInfo.name, (basicSqlActiveCols mainTable).head?,
      ?_, ?_, ?_⟩
    · intro c hc
      simp only [List.mem_map] at hc ⊢
      obtain ⟨col, hcol, rfl⟩ := hc
      exact ⟨col, List.take_subset _ _ hcol, rfl⟩
    · intro a ha
      cases hh : (basicSqlActiveCols mainTable).head? with
      | none => simp [hh] at ha
      | some a0 =>
        rw [hh] at ha
        simp only [Option.toList_some, List.mem_singleton] at ha
        subst ha
        have hmem : a ∈ basicSqlActiveCols mainTable := by
          cases hl : basicSqlActiveCols mainTable with
          | nil => rw [hl] at hh; simp at hh
          | cons x xs =>
            rw [hl] at hh
            simp only [List.head?_cons, Option.some.injEq] at hh
            subst hh
            exact List.mem_cons_self _ _
        simp only [basicSqlActiveCols, List.mem_map] at hmem
        obtain ⟨col, hcol, rfl⟩ := hmem
        exact List.mem_map.mpr ⟨col, List.mem_of_mem_filter hcol, rfl⟩
    · cases hl : basicSqlActiveCols mainTable with
      | nil =>
        simp [generateBasicSql, specRenderBasicSql, hl, basicSqlSelectCols, List.map_map,
          Function.comp_def]
      | cons a0 rest0 =>
        simp [generateBasicSql, specRenderBasicSql, hl, basicSqlSelectCols, List.map_map,
          Function.comp_def]
  · simp only [generateSqlFallback, hfind]

/-- C1 (counterexample): for the supplied descriptors
`[Patient(PatientId, FirstName)]`, the rule-based fallback of
`enhanced_schema_rag` returns SQL referencing the columns `Active` and
`IsActive`, neither of which appears among the supplied descriptors —
refuting the claim that every referenced column name appears there. -/
theorem C1_active_filter_counterexample :
    generateSqlFallback "find patient email" [ragPatientTable] =
      "SELECT p.PatientId, p.FirstName\nFROM Patient p\nWHERE p.Active = 1 OR p.IsActive = 1"
    ∧ pyContains (generateSqlFallback "find patient email" [ragPatientTable]) "p.Active = 1" = true
    ∧ pyContains (generateSqlFallback "find patient email" [ragPatientTable]) "p.IsActive = 1" = true
    ∧ "Active" ∉ ragPatientTable.columns.map ColumnInfo.name
    ∧ "IsActive" ∉ ragPatientTable.columns.map ColumnInfo.name := by
  decide

/-- C1 (witness): the grounding theorem applied to the concrete `Employee`
table and the concrete `Patient` fixture. -/
theorem C1_rule_based_grounding_witness :
    (∃ colNames : List String, ∃ activeCol : Option String,
      (∀ c ∈ colNames, c ∈ basicEmployeeTable.columns.map ColumnInfo.name)
      ∧ (∀ a ∈ activeCol.toList, a ∈ basicEmployeeTable.columns.map ColumnInfo.name)
      ∧ generateBasicSql "list employees" [basicEmployeeTable] =
          specRenderBasicSql basicEmployeeTable.table_name colNames activeCol)
    ∧ generateSqlFallback "find patient email" [ragPatientTable] =
        "SELECT " ++ String.intercalate ", "
            ((ragSelectCols (aliasOf (determineMainTable (pyLower "find patient email")
              [ragPatientTable])) ragPatientTable).take 5) ++ "\n" ++
        "FROM " ++ determineMainTable (pyLower "find patient email") [ragPatientTable] ++ " " ++
          aliasOf (determineMainTable (pyLower "find patient email") [ragPatientTable]) ++ "\n" ++
        "WHERE " ++ aliasOf (determineMainTable (pyLower "find patient email") [ragPatientTable]) ++
          ".Active = 1 OR " ++
          aliasOf (determineMainTable (pyLower "find patient email") [ragPatientTable]) ++
          ".IsActive = 1" :=
  C1_rule_based_grounding_amended "list employees" basicEmployeeTable [] "find patient email"
    [ragPatientTable] ragPatientTable (by decide)

/-- C2 (amended): when the wrapped operation raises a retryable
`pyodbc.Error` on every attempt, `retry_db_operation` with
`max_retries = 3` invokes it exactly 3 times, sleeping `delay` then
`delay * 2` between attempts, and then re-raises the LAST underlying
`pyodbc.Error` itself (there is no typed `QueryExecutionError` class in
the repository); on a non-retryable `pyodbc.Error`, or on an exception of
any other class, the operation is invoked exactly once, no sleep happens,
and the error is re-raised immediately. -/
theorem C2_retry_behavior_amended {α : Type} (d : Nat) (f : Nat → DbOutcome α) (m0 m1 m2 : String) :
    ((f 0 = .dbErr m0 ∧ f 1 = .dbErr m1 ∧ f 2 = .dbErr m2 ∧
      isRetryable m0 = true ∧ isRetryable m1 = true) →
        retryDbOperation 3 d 2 f = ⟨.raised (.pyodbcError m2), 3, [d, d * 2]⟩)
    ∧ ((f 0 = .dbErr m0 ∧ isRetryable m0 = false) →
        retryDbOperation 3 d 2 f = ⟨.raised (.pyodbcError m0), 1, []⟩)
    ∧ (f 0 = .otherErr m0 →
        retryDbOperation 3 d 2 f = ⟨.raised (.otherError m0), 1, []⟩) := by
  refine ⟨?_, ?_, ?_⟩
  · rintro ⟨h0, h1, h2, r0, r1⟩
    simp [retryDbOperation, retryGo, h0, h1, h2, r0, r1]
  · rintro ⟨h0, r0⟩
    simp [retryDbOperation, retryGo, h0, r0]
  · intro h0
    simp [retryDbOperation, retryGo, h0]

/-- C2 (counterexample): on a store that always raises the retryable
deadlock error `40001`, the wrapper (with `search_employee_by_name`'s
`max_retries = 3, delay = 2`) makes exactly 3 calls and sleeps 2 then 4
seconds, but the exception it then raises is the underlying
`pyodbc.Error` itself, not a typed `QueryExecutionError` — refuting the
claim's "raises a typed QueryExecutionError". -/
theorem C2_raw_error_counterexample :
    retryDbOperation (α := Nat) 3 2 2 (fun _ => .dbErr "40001 deadlock victim") =
      ⟨.raised (.pyodbcError "40001 deadlock victim"), 3, [2, 4]⟩
    ∧ raisedQueryExecutionErr
        (retryDbOperation (α := Nat) 3 2 2 (fun _ => .dbErr "40001 deadlock victim")) = false := by
  decide

/-- C2 (witness): the amended retry theorem applied to concrete stores that
always raise a retryable timeout, raise a non-retryable syntax error, and
raise a non-database exception. -/
theorem C2_retry_behavior_witness :
    retryDbOperation (α := Nat) 3 1 2 (fun _ => .dbErr "timeout expired") =
      ⟨.raised (.pyodbcError "timeout expired"), 3, [1, 2]⟩
    ∧ retryDbOperation (α := Nat) 3 1 2 (fun _ => .dbErr "42000 syntax error") =
      ⟨.raised (.pyodbcError "42000 syntax error"), 1, []⟩
    ∧ retryDbOperation (α := Nat) 3 1 2 (fun _ => .otherErr "KeyError") =
      ⟨.raised (.otherError "KeyError"), 1, []⟩ :=
  ⟨(C2_retry_behavior_amended 1 (fun _ => .dbErr "timeout expired")
      "timeout expired" "timeout expired" "timeout expired").1
      ⟨rfl, rfl, rfl, by decide, by decide⟩,
   (C2_retry_behavior_amended 1 (fun _ => .dbErr "42000 syntax error")
      "42000 syntax error" "" "").2.1 ⟨rfl, by decide⟩,
   (C2_retry_behavior_amended 1 (fun _ => .otherErr "KeyError") "KeyError" "" "").2.2 rfl⟩

/-- C3: if the vector client or the embedding model is unavailable,
`get_schema_for_query` never tags a result `vector_search`; it returns
every table of the current snapshot tagged `complete_schema` with
confidence 0.5. -/
theorem C3_fallback_no_vector_search (clientAvailable embeddingAvailable : Bool) (schema : Schema)
    (vectorSearch : Except String (List SearchHit)) (userQuery : String)
    (h : clientAvailable = false ∨ embeddingAvailable = false) :
    (getSchemaForQuery clientAvailable embeddingAvailable schema vectorSearch userQuery).search_method
        ≠ "vector_search"
    ∧ getSchemaForQuery clientAvailable embeddingAvailable schema vectorSearch userQuery =
        ⟨schema.map Prod.snd, 1/2, "complete_schema"⟩ := by
  have hcond : (!clientAvailable || !embeddingAvailable) = true := by
    rcases h with rfl | rfl <;> simp
  have he : getSchemaForQuery clientAvailable embeddingAvailable schema vectorSearch userQuery =
      ⟨schema.map Prod.snd, 1/2, "complete_schema"⟩ := by
    unfold getSchemaForQuery
    rw [if_pos hcond]
  refine ⟨?_, he⟩
  rw [he]
  show ("complete_schema" : String) ≠ "vector_search"
  decide

/-- C3 (witness): the fallback theorem applied with no vector client, the
concrete two-table snapshot, and a concrete query. -/
theorem C3_fallback_no_vector_search_witness :
    (getSchemaForQuery false true demoSchema (Except.ok []) "list patients").search_method
        ≠ "vector_search"
    ∧ getSchemaForQuery false true demoSchema (Except.ok []) "list patients" =
        ⟨demoSchema.map Prod.snd, 1/2, "complete_schema"⟩ :=
  C3_fallback_no_vector_search false true demoSchema (Except.ok []) "list patients" (Or.inl rfl)

/-- C4 (amended): when the embedding backend is available and the vector
search returns zero tables WITHOUT raising, `get_schema_for_query`
returns the keyword-matched tables but tags them `method=vector_search`
with confidence 0.7; the `keyword_fallback` tag with confidence 0.6 is
produced only when the vector search raises an exception. -/
theorem C4_zero_hit_tagging_amended (schema : Schema) (userQuery : String) (e : String) :
    getSchemaForQuery true true schema (.ok []) userQuery =
      ⟨getTablesByKeywords schema userQuery, 7/10, "vector_search"⟩
    ∧ getSchemaForQuery true true schema (.error e) userQuery =
      ⟨getTablesByKeywords schema userQuery, 3/5, "keyword_fallback"⟩ := ⟨rfl, rfl⟩

/-- C4 (counterexample): with both backends available and a vector search
that succeeds with zero hits, the result holds the keyword-matched tables
yet is tagged `vector_search` with confidence 0.7 — refuting the claimed
`keyword_fallback` tag and confidence 0.6. -/
theorem C4_zero_hit_counterexample :
    (getSchemaForQuery true true demoSchema (Except.ok [])
        "check availability of jon snow").search_method = "vector_search"
    ∧ (getSchemaForQuery true true demoSchema (Except.ok [])
        "check availability of jon snow").search_method ≠ "keyword_fallback"
    ∧ (getSchemaForQuery true true demoSchema (Except.ok [])
        "check availability of jon snow").confidence_score = 7/10
    ∧ (getSchemaForQuery true true demoSchema (Except.ok [])
        "check availability of jon snow").tables
        = getTablesByKeywords demoSchema "check availability of jon snow"
    ∧ getTablesByKeywords demoSchema "check availability of jon snow" ≠ [] := by
  refine ⟨by decide, by decide, by rfl, by decide, by decide⟩

/-- C5: the weekday code assigned by availability SQL generation
(`AvailabilityQueryGenerator.weekday_mapping`, Monday = 1 … Sunday = 7)
does NOT match the code the availability result formatter maps back to a
name (`day_mapping`, 1 = Sunday … 7 = Saturday): for `wednesday` the
generator emits code 3 while the formatter renders code 3 as `Tuesday`,
and the two conventions disagree on every one of the seven weekdays. -/
theorem C5_weekday_convention_mismatch :
    weekdayMapping.lookup "wednesday" = some 3
    ∧ extractWeekday "need a list of available employees on this wednesday" = 3
    ∧ dayMapping.lookup 3 = some "Tuesday"
    ∧ dayNameFor (PyVal.vInt 3) = "Tuesday"
    ∧ weekdayMapping.map (fun p => (p.1, (dayMapping.lookup p.2).getD "")) =
        [("monday", "Sunday"), ("tuesday", "Monday"), ("wednesday", "Tuesday"),
         ("thursday", "Wednesday"), ("friday", "Thursday"), ("saturday", "Friday"),
         ("sunday", "Saturday")]
    ∧ (weekdayMapping.all (fun p => pyLower ((dayMapping.lookup p.2).getD "") ≠ p.1)) = true := by
  decide

/-- C6: the schema change check computes its change set by set difference —
a table is reported added iff it is a key of the new snapshot and not of
the old, removed iff the reverse; a column is reported added (removed)
for a table iff the table is in both snapshots and the column is in the
new (old) table's column set only; and on the concrete scenario where the
only change is adding column `Email` to table `Patient`, the analysis
reports `columns_added = {Patient: [Email]}` with no tables added or
removed. -/
theorem C6_schema_diff_set_difference (oldS newS : Schema) (t c : String) :
    (t ∈ tablesAddedOf oldS newS ↔ t ∈ newS.map Prod.fst ∧ t ∉ oldS.map Prod.fst)
    ∧ (t ∈ tablesRemovedOf oldS newS ↔ t ∈ oldS.map Prod.fst ∧ t ∉ newS.map Prod.fst)
    ∧ (colAddedIn (schemaChangeAnalysis oldS newS) t c = true ↔
        (t ∈ oldS.map Prod.fst ∧ t ∈ newS.map Prod.fst ∧
         c ∈ tableColNames newS t ∧ c ∉ tableColNames oldS t))
    ∧ (colRemovedIn (schemaChangeAnalysis oldS newS) t c = true ↔
        (t ∈ oldS.map Prod.fst ∧ t ∈ newS.map Prod.fst ∧
         c ∈ tableColNames oldS t ∧ c ∉ tableColNames newS t))
    ∧ schemaChangeAnalysis patientOldSchema patientNewSchema =
        ⟨["Patient"], [("Patient", ["Email"])], []⟩
    ∧ tablesAddedOf patientOldSchema patientNewSchema = []
    ∧ tablesRemovedOf patientOldSchema patientNewSchema = [] :=
  ⟨tablesAdded_iff oldS newS t, tablesRemoved_iff oldS newS t,
   colAdded_iff oldS newS t c, colRemoved_iff oldS newS t c,
   by decide, by decide, by decide⟩

/-- C7: schema retrieval is total — for every input string (the empty string
and nonsense included) and every backend state, `get_schema_for_query`
returns a well-formed result whose method is one of the three enum values;
when no domain keyword occurs in the lowercased query the keyword matcher
returns the default core set `{Patient, Employee, Appointment}` (restricted
to tables present in the snapshot); and with no backend at all the full
schema is returned. -/
theorem C7_retrieval_total_defaults (clientAvailable embeddingAvailable : Bool) (schema : Schema)
    (vectorSearch : Except String (List SearchHit)) (userQuery : String) :
    ((getSchemaForQuery clientAvailable embeddingAvailable schema vectorSearch userQuery).search_method
        ∈ ["vector_search", "keyword_fallback", "complete_schema"])
    ∧ (matchedTables userQuery = [] →
        getTablesByKeywords schema userQuery =
          ["Patient", "Employee", "Appointment"].filterMap (fun t => schema.lookup t))
    ∧ ((!clientAvailable || !embeddingAvailable) = true →
        (getSchemaForQuery clientAvailable embeddingAvailable schema vectorSearch userQuery).tables
          = schema.map Prod.snd) := by
  refine ⟨?_, ?_, ?_⟩
  · unfold getSchemaForQuery
    split
    · show ("complete_schema" : String) ∈ ["vector_search", "keyword_fallback", "complete_schema"]
      decide
    · cases vectorSearch with
      | error e =>
        show ("keyword_fallback" : String) ∈ ["vector_search", "keyword_fallback", "complete_schema"]
        decide
      | ok hits =>
        show ("vector_search" : String) ∈ ["vector_search", "keyword_fallback", "complete_schema"]
        decide
  · intro h
    unfold getTablesByKeywords
    rw [h]
    rfl
  · intro h
    unfold getSchemaForQuery
    rw [if_pos h]

/-- C7 (witness): totality and the defaults at the empty query, with no
vector client, over the concrete snapshot. -/
theorem C7_retrieval_total_defaults_witness :
    ((getSchemaForQuery false true demoSchema (Except.ok []) "").search_method
        ∈ ["vector_search", "keyword_fallback", "complete_schema"])
    ∧ getTablesByKeywords demoSchema "" =
        ["Patient", "Employee", "Appointment"].filterMap (fun t => demoSchema.lookup t)
    ∧ (getSchemaForQuery false true demoSchema (Except.ok []) "").tables
        = demoSchema.map Prod.snd := by
  have h := C7_retrieval_total_defaults false true demoSchema (Except.ok []) ""
  exact ⟨h.1, h.2.1 (by decide), h.2.2 (by decide)⟩

/-- C8 (amended): the LLM fence stripping of `dynamic_schema_manager` and
`enhanced_schema_rag` is one and the same computation and strips a leading
```` ```sql ````, a leading bare ```` ``` ```` and a trailing
```` ``` ````; the availability generator's stripping handles the leading
```` ```sql ```` and the trailing fence but NOT a leading bare
```` ``` ````.  In particular a ```` ```sql ````-fenced `SELECT 1` yields
`"SELECT 1"` in all three generators, while a bare-fenced `SELECT 1`
yields `"SELECT 1"` in the first two but keeps its opening fence in the
availability generator. -/
theorem C8_fence_stripping_amended (raw : String) :
    cleanLlmSqlDyn raw = cleanLlmSqlRag raw
    ∧ cleanLlmSqlDyn "```sql\nSELECT 1\n```" = "SELECT 1"
    ∧ cleanLlmSqlRag "```sql\nSELECT 1\n```" = "SELECT 1"
    ∧ cleanLlmSqlAvail "```sql\nSELECT 1\n```" = "SELECT 1"
    ∧ cleanLlmSqlDyn "```\nSELECT 1\n```" = "SELECT 1"
    ∧ cleanLlmSqlRag "```\nSELECT 1\n```" = "SELECT 1"
    ∧ cleanLlmSqlAvail "```\nSELECT 1\n```" = "```\nSELECT 1" :=
  ⟨rfl, by decide, by decide, by decide, by decide, by decide, by decide⟩

/-- C8 (counterexample): a bare-fenced response holding only `SELECT 1` is
not fully stripped by the availability generator: the opening fence
survives — refuting the claim that the generator strips a leading bare
```` ``` ```` marker. -/
theorem C8_bare_fence_counterexample :
    cleanLlmSqlAvail "```\nSELECT 1\n```" = "```\nSELECT 1"
    ∧ cleanLlmSqlAvail "```\nSELECT 1\n```" ≠ "SELECT 1" := by
  decide

/-- C9: for every query string and each formatter category (availability,
availability list, appointment, provider search, and the generic zero-row
branch), formatting an empty row list yields the explicit non-empty
"no matches" message of that category — never the empty string, and (the
Lean functions being total) never an exception. -/
theorem C9_empty_rows_message (query originalQuery : String) (metadata : Row)
    (sqlQuery : Option String) (tableNames : List String) :
    (formatAvailabilityResults query [] sqlQuery =
        "I analyzed your query '" ++ query ++
          "' and searched the employee schedules, but couldn't find any matching availability information. Please try specifying a different date, time, or provider name."
      ∧ formatAvailabilityResults query [] sqlQuery ≠ "")
    ∧ (formatAvailabilityListResults [] metadata = "No employees found matching your criteria."
      ∧ formatAvailabilityListResults [] metadata ≠ "")
    ∧ (formatAppointmentResults [] query =
        "I couldn't find any appointment information. Would you like to book a new appointment?"
      ∧ formatAppointmentResults [] query ≠ "")
    ∧ (formatProviderResults [] query =
        "I couldn't find any providers matching your criteria. Please try different search terms."
      ∧ formatProviderResults [] query ≠ "")
    ∧ formatRagGenericNoResults originalQuery tableNames ≠ "" := by
  refine ⟨⟨rfl, ?_⟩, ⟨rfl, ?_⟩, ⟨rfl, ?_⟩, ⟨rfl, ?_⟩, ?_⟩
  · show "I analyzed your query '" ++ _ ≠ ""
    exact appendNeEmptyOfLeft _ _ (by decide)
  · show ("No employees found matching your criteria." : String) ≠ ""
    decide
  · show ("I couldn't find any appointment information. Would you like to book a new appointment?" : String) ≠ ""
    decide
  · show ("I couldn't find any providers matching your criteria. Please try different search terms." : String) ≠ ""
    decide
  · show "I searched through " ++ _ ≠ ""
    exact appendNeEmptyOfLeft _ _ (by decide)

set_option maxRecDepth 4000 in
/-- C10: the embedding helper is total — it always returns a list of
scalars, and whenever the embedding model is unavailable or the
underlying embedding call raises, it returns the 384-dimensional zero
vector instead of failing. -/
theorem C10_embedding_zero_fallback (embeddingModelAvailable : Bool)
    (embeddingType : Option String) (backendCall : Except String (List ℚ))
    (h : embeddingModelAvailable = false ∨ ∃ e, backendCall = Except.error e) :
    getEmbedding embeddingModelAvailable embeddingType backendCall = List.replicate 384 0
    ∧ (getEmbedding embeddingModelAvailable embeddingType backendCall).length = 384 := by
  have hz : getEmbedding embeddingModelAvailable embeddingType backendCall =
      List.replicate 384 0 := by
    rcases h with rfl | ⟨e, rfl⟩
    · rfl
    · cases embeddingModelAvailable with
      | false => rfl
      | true =>
        unfold getEmbedding
        split_ifs <;> rfl
  exact ⟨hz, by rw [hz]; simp⟩

/-- C10 (witness): the zero-vector fallback at a concrete unavailable
model. -/
theorem C10_embedding_zero_fallback_witness :
    getEmbedding false none (Except.ok []) = List.replicate 384 0
    ∧ (getEmbedding false none (Except.ok [])).length = 384 :=
  C10_embedding_zero_fallback false none (Except.ok []) (Or.inl rfl)

end Mpm
